import Mathlib

/-!
Verification of the `RpcGateway` bridge
(`src/vnpy_rpcservice/rpc_gateway/rpc_gateway.py`).

The gateway is embedded shallowly:

* the mutable object state (`gateway_name`, `symbol_gateway_map`) becomes the
  structure `Vnpy.RpcGateway`, with the Python `dict` modelled as an
  association list with insert-or-overwrite assignment (`Vnpy.mapSet`) and
  defaulting lookup (`Vnpy.mapGet`, mirroring `dict.get(key, "")`);
* every observable side effect (calls into the `RpcClient` transport, records
  forwarded to the host via `on_contract`/`on_account`/..., events put on the
  host event bus, log lines, console diagnostics) becomes one constructor of
  the trace alphabet `Vnpy.Action`, and each method returns the list of
  actions it performs, in program order;
* the remote fetches `get_all_contracts`/... may raise in Python, so the
  mocked transport `Vnpy.RpcClientE` gives each of them an `Except` value and
  `Vnpy.query_allE` propagates the first error exactly as an uncaught Python
  exception would (every action performed before the raise is kept in the
  trace);
* the Python tuple unpacking `_, orderid = gateway_orderid.split(".")` in
  `send_order` can raise `ValueError`, so the embedded `send_order` returns
  `Except String String`.

The host framework record types (`vnpy.trader.object`) are outside this
repository; only the fields the bridge reads or writes are modelled, and the
`__post_init__` hooks are modelled from the spec (section 3, "Derived
fields": a composite key built from identity and the owning-gateway name).
-/

set_option maxHeartbeats 1000000

deriving instance DecidableEq for Except

namespace Vnpy

/-- Subscribe request; the bridge only reads its compound instrument key. -/
structure SubscribeRequest where
  vt_symbol : String
deriving DecidableEq

/-- Order request; the bridge only reads its compound instrument key. -/
structure OrderRequest where
  vt_symbol : String
deriving DecidableEq

/-- Cancel request; the bridge only reads its compound instrument key. -/
structure CancelRequest where
  vt_symbol : String
deriving DecidableEq

/-- History request; the bridge only reads its compound instrument key. -/
structure HistoryRequest where
  vt_symbol : String
deriving DecidableEq

/-- Contract record: instrument identity plus the owning-gateway label.
`vt_symbol` is the compound instrument key used by the routing table. -/
structure ContractData where
  symbol : String
  vt_symbol : String
  gateway_name : String
deriving DecidableEq

/-- Account record with its derived composite key `vt_accountid`. -/
structure AccountData where
  accountid : String
  gateway_name : String
  vt_accountid : String
deriving DecidableEq

/-- Position record with its derived composite key `vt_positionid`. -/
structure PositionData where
  vt_symbol : String
  direction : String
  gateway_name : String
  vt_positionid : String
deriving DecidableEq

/-- Order record with its derived composite key `vt_orderid`. -/
structure OrderData where
  orderid : String
  gateway_name : String
  vt_orderid : String
deriving DecidableEq

/-- Trade record with its derived composite keys `vt_orderid`, `vt_tradeid`. -/
structure TradeData where
  orderid : String
  tradeid : String
  gateway_name : String
  vt_orderid : String
  vt_tradeid : String
deriving DecidableEq

/-- Modelled from the spec: the host framework's `AccountData.__post_init__`
(outside this repository) recomputes the derived composite key from the
owning-gateway label and the account id. -/
def accountPostInit (a : AccountData) : AccountData :=
  { a with vt_accountid := a.gateway_name ++ "." ++ a.accountid }

/-- Modelled from the spec: the host framework's `PositionData.__post_init__`
(outside this repository) recomputes the derived composite key from the
owning-gateway label, the instrument key and the direction. -/
def positionPostInit (p : PositionData) : PositionData :=
  { p with vt_positionid := p.gateway_name ++ "." ++ p.vt_symbol ++ "." ++ p.direction }

/-- Modelled from the spec: the host framework's `OrderData.__post_init__`
(outside this repository) recomputes the derived composite key from the
owning-gateway label and the order id. -/
def orderPostInit (o : OrderData) : OrderData :=
  { o with vt_orderid := o.gateway_name ++ "." ++ o.orderid }

/-- Modelled from the spec: the host framework's `TradeData.__post_init__`
(outside this repository) recomputes both derived composite keys from the
owning-gateway label and the order/trade ids. -/
def tradePostInit (t : TradeData) : TradeData :=
  { t with
    vt_orderid := t.gateway_name ++ "." ++ t.orderid
    vt_tradeid := t.gateway_name ++ "." ++ t.tradeid }

/-- Payload of a pushed event.  The first five kinds carry a `gateway_name`
attribute (so `hasattr(data, "gateway_name")` holds for them); `other` stands
for any payload without that attribute.  Only the four kinds in the
`isinstance` tuple of `client_callback` have derived fields. -/
inductive EventData where
  | contract (c : ContractData)
  | account (a : AccountData)
  | position (p : PositionData)
  | order (o : OrderData)
  | trade (t : TradeData)
  | other (payload : String)
deriving DecidableEq

/-- An event as pushed by the transport: a type tag and a payload. -/
structure Event where
  etype : String
  data : EventData
deriving DecidableEq

/-- One observable side effect of the bridge, in program order:
calls into the `RpcClient` transport, records forwarded to the host,
events put on the host event bus, log lines and console diagnostics. -/
inductive Action where
  | subscribeTopic (pfx : String)
  | clientStart (reqAddress pubAddress : String)
  | clientStop
  | clientJoin
  | clientSubscribe (vtSymbol gatewayArg : String)
  | clientSendOrder (vtSymbol gatewayArg : String)
  | clientCancelOrder (vtSymbol gatewayArg : String)
  | clientQueryHistory (vtSymbol gatewayArg : String)
  | getAllContracts
  | getAllAccounts
  | getAllPositions
  | getAllOrders
  | getAllTrades
  | onContract (c : ContractData)
  | onAccount (a : AccountData)
  | onPosition (p : PositionData)
  | onOrder (o : OrderData)
  | onTrade (t : TradeData)
  | putEvent (e : Event)
  | printDiag (topic : String)
  | writeLog (msg : String)
deriving DecidableEq

/-- First-occurrence lookup in an association list (Python `dict` access). -/
def lookupFirst : List (String × String) → String → Option String
  | [], _ => none
  | (k, v) :: rest, key => if k = key then some v else lookupFirst rest key

/-- Python `dict.get(key, "")`: defaulting lookup, never raises. -/
def mapGet (m : List (String × String)) (k : String) : String :=
  (lookupFirst m k).getD ""

/-- Python `dict` assignment `m[k] = v`: overwrite the binding in place if the
key is present, append it otherwise (insertion order is preserved, as in a
Python `dict`). -/
def mapSet : List (String × String) → String → String → List (String × String)
  | [], k, v => [(k, v)]
  | (k', v') :: rest, k, v =>
    if k' = k then (k, v) :: rest else (k', v') :: mapSet rest k v

/-- The mutable state of a `RpcGateway` instance: its configured gateway name
and the `symbol_gateway_map` routing table. -/
structure RpcGateway where
  gateway_name : String
  symbol_gateway_map : List (String × String)
deriving DecidableEq

/-- `RpcGateway.default_name`. -/
def default_name : String := "RPC"

/-- `RpcGateway.default_setting`: the two configured endpoint addresses. -/
structure ConnectSetting where
  request_address : String
  subscription_address : String
deriving DecidableEq

/-- The default endpoint addresses of `RpcGateway.default_setting`. -/
def default_setting : ConnectSetting :=
  ⟨"tcp://127.0.0.1:2014", "tcp://127.0.0.1:4102"⟩

/-- Mocked transport: the value each `get_all_*` fetch produces, or the
exception it raises. -/
structure RpcClientE where
  get_all_contracts : Except String (List ContractData)
  get_all_accounts : Except String (List AccountData)
  get_all_positions : Except String (List PositionData)
  get_all_orders : Except String (List OrderData)
  get_all_trades : Except String (List TradeData)

/-- `RpcGateway.subscribe`: resolve the sub-gateway from the routing table
(defaulting to the empty string) and forward the subscribe call. -/
def subscribe (gw : RpcGateway) (req : SubscribeRequest) : List Action :=
  let gateway_name := mapGet gw.symbol_gateway_map req.vt_symbol
  [Action.clientSubscribe req.vt_symbol gateway_name]

/-- Python `str.split(".")` on the character list: split on every dot, so a
string with n dots yields n+1 (possibly empty) fragments. -/
def splitCharsOnDot : List Char → List (List Char)
  | [] => [[]]
  | c :: rest =>
    let r := splitCharsOnDot rest
    if c = '.' then [] :: r
    else
      match r with
      | [] => [[c]]
      | g :: gs => (c :: g) :: gs

/-- Python `str.split(".")`: e.g. "a.b" becomes ["a", "b"] and "a.b.c"
becomes ["a", "b", "c"]. -/
def splitOnDot (s : String) : List String :=
  (splitCharsOnDot s.data).map (fun l => String.mk l)

/-- `RpcGateway.send_order`.  `remoteResult` is the string the transport's
`send_order` call returns.  The Python body unpacks
`_, orderid = gateway_orderid.split(".")`, which raises `ValueError` unless
the split (on every dot) yields exactly two parts; that fallible unpacking is
the `Except` value.  The performed transport call is the action list. -/
def send_order (gw : RpcGateway) (remoteResult : String) (req : OrderRequest) :
    List Action × Except String String :=
  let gateway_name := mapGet gw.symbol_gateway_map req.vt_symbol
  let acts := [Action.clientSendOrder req.vt_symbol gateway_name]
  if remoteResult = "" then
    (acts, Except.ok remoteResult)
  else
    match splitOnDot remoteResult with
    | [_, orderid] => (acts, Except.ok (gw.gateway_name ++ "." ++ orderid))
    | _ => (acts, Except.error "ValueError: tuple unpacking of str.split result")

/-- `RpcGateway.cancel_order`: resolve the sub-gateway and forward the cancel. -/
def cancel_order (gw : RpcGateway) (req : CancelRequest) : List Action :=
  let gateway_name := mapGet gw.symbol_gateway_map req.vt_symbol
  [Action.clientCancelOrder req.vt_symbol gateway_name]

/-- `RpcGateway.query_account`: the body is `pass`. -/
def query_account (gw : RpcGateway) : RpcGateway × List Action :=
  (gw, [])

/-- `RpcGateway.query_position`: the body is `pass`. -/
def query_position (gw : RpcGateway) : RpcGateway × List Action :=
  (gw, [])

/-- `RpcGateway.query_history`: resolve the sub-gateway, forward the query and
return the remote bar sequence verbatim (the bars themselves are opaque to the
bridge, so only the dispatched call is recorded). -/
def query_history (gw : RpcGateway) (req : HistoryRequest) : List Action :=
  let gateway_name := mapGet gw.symbol_gateway_map req.vt_symbol
  [Action.clientQueryHistory req.vt_symbol gateway_name]

/-- The contract loop of `query_all` as it acts on `symbol_gateway_map`:
`self.symbol_gateway_map[contract.vt_symbol] = contract.gateway_name` for each
contract in order.  The original (remote) owning-gateway name is stored, since
the label rewrite happens after the assignment. -/
def rebuildMap (m : List (String × String)) (cs : List ContractData) :
    List (String × String) :=
  cs.foldl (fun acc c => mapSet acc c.vt_symbol c.gateway_name) m

/-- The label rewrite `contract.gateway_name = self.gateway_name` performed on
each contract before it is forwarded to the host. -/
def relabelContract (gname : String) (c : ContractData) : ContractData :=
  { c with gateway_name := gname }

/-- Result of `query_all` (and of `connect`): the trace of performed actions,
the gateway state after the run, and `Except.error e` when an uncaught
exception `e` aborted the run. -/
structure QueryResult where
  trace : List Action
  state : RpcGateway
  result : Except String Unit
deriving DecidableEq

/-- `RpcGateway.query_all` over the mocked transport.  Each of the five stages
fetches its record list, relabels every record to the bridge's own gateway
name (recomputing derived fields for account/position/order/trade), forwards
each record to the host, and writes one completion log line.  There is no
exception handling in the Python body: a raising fetch aborts the run, keeping
the actions performed so far. -/
def query_allE (gw : RpcGateway) (cl : RpcClientE) : QueryResult :=
  match cl.get_all_contracts with
  | Except.error e => ⟨[Action.getAllContracts], gw, Except.error e⟩
  | Except.ok contracts =>
    let gw1 : RpcGateway :=
      { gw with symbol_gateway_map := rebuildMap gw.symbol_gateway_map contracts }
    let t1 : List Action :=
      [Action.getAllContracts]
      ++ contracts.map (fun c => Action.onContract (relabelContract gw.gateway_name c))
      ++ [Action.writeLog "Successful contract information inquiry"]
    match cl.get_all_accounts with
    | Except.error e => ⟨t1 ++ [Action.getAllAccounts], gw1, Except.error e⟩
    | Except.ok accounts =>
      let t2 : List Action :=
        t1 ++ [Action.getAllAccounts]
        ++ accounts.map (fun a =>
            Action.onAccount (accountPostInit { a with gateway_name := gw.gateway_name }))
        ++ [Action.writeLog "Funding information query successful"]
      match cl.get_all_positions with
      | Except.error e => ⟨t2 ++ [Action.getAllPositions], gw1, Except.error e⟩
      | Except.ok positions =>
        let t3 : List Action :=
          t2 ++ [Action.getAllPositions]
          ++ positions.map (fun p =>
              Action.onPosition (positionPostInit { p with gateway_name := gw.gateway_name }))
          ++ [Action.writeLog "Position information query successful"]
        match cl.get_all_orders with
        | Except.error e => ⟨t3 ++ [Action.getAllOrders], gw1, Except.error e⟩
        | Except.ok orders =>
          let t4 : List Action :=
            t3 ++ [Action.getAllOrders]
            ++ orders.map (fun o =>
                Action.onOrder (orderPostInit { o with gateway_name := gw.gateway_name }))
            ++ [Action.writeLog "Order information query successful"]
          match cl.get_all_trades with
          | Except.error e => ⟨t4 ++ [Action.getAllTrades], gw1, Except.error e⟩
          | Except.ok trades =>
            let t5 : List Action :=
              t4 ++ [Action.getAllTrades]
              ++ trades.map (fun t =>
                  Action.onTrade (tradePostInit { t with gateway_name := gw.gateway_name }))
              ++ [Action.writeLog "Successful trade information query"]
            ⟨t5, gw1, Except.ok ()⟩

/-- `RpcGateway.connect`: subscribe to the empty-prefix topic, start the
transport with the two configured endpoints, write the connection log line,
and run the full initialization query. -/
def connect (gw : RpcGateway) (setting : ConnectSetting) (cl : RpcClientE) :
    QueryResult :=
  let q := query_allE gw cl
  ⟨[Action.subscribeTopic "",
    Action.clientStart setting.request_address setting.subscription_address,
    Action.writeLog "Server connection successful, starting initialization query"]
    ++ q.trace,
   q.state, q.result⟩

/-- `RpcGateway.close`: stop the transport, then join its delivery thread. -/
def close (_gw : RpcGateway) : List Action :=
  [Action.clientStop, Action.clientJoin]

/-- The `hasattr(data, "gateway_name")` guarded rewrite
`data.gateway_name = self.gateway_name` of `client_callback`: payloads that
carry the attribute are relabelled, others are left untouched. -/
def setGatewayName (gname : String) : EventData → EventData
  | EventData.contract c => EventData.contract { c with gateway_name := gname }
  | EventData.account a => EventData.account { a with gateway_name := gname }
  | EventData.position p => EventData.position { p with gateway_name := gname }
  | EventData.order o => EventData.order { o with gateway_name := gname }
  | EventData.trade t => EventData.trade { t with gateway_name := gname }
  | EventData.other s => EventData.other s

/-- The `isinstance(data, (PositionData, AccountData, OrderData, TradeData))`
guarded `data.__post_init__()` of `client_callback`: exactly the four
derived-field kinds are recomputed. -/
def postInitData : EventData → EventData
  | EventData.account a => EventData.account (accountPostInit a)
  | EventData.position p => EventData.position (positionPostInit p)
  | EventData.order o => EventData.order (orderPostInit o)
  | EventData.trade t => EventData.trade (tradePostInit t)
  | d => d

/-- `RpcGateway.client_callback`: a null event is printed to the console and
dropped; otherwise the payload is relabelled, its derived fields recomputed
where applicable, and the event is put on the host event bus. -/
def client_callback (gw : RpcGateway) (topic : String) : Option Event → List Action
  | none => [Action.printDiag topic]
  | some ev =>
    [Action.putEvent ⟨ev.etype, postInitData (setGatewayName gw.gateway_name ev.data)⟩]

/-- The owning-gateway label carried by a payload, when it has one. -/
def dataGatewayName : EventData → Option String
  | EventData.contract c => some c.gateway_name
  | EventData.account a => some a.gateway_name
  | EventData.position p => some p.gateway_name
  | EventData.order o => some o.gateway_name
  | EventData.trade t => some t.gateway_name
  | EventData.other _ => none

/-- Recognize an unfiltered-or-not topic subscription in a trace. -/
def isSubscribeTopicAct : Action → Bool
  | Action.subscribeTopic _ => true
  | _ => false

/-- Recognize a transport start in a trace. -/
def isStartAct : Action → Bool
  | Action.clientStart _ _ => true
  | _ => false

/-- History alphabet for the lifecycle of the transport's background delivery
thread: a callback invocation, the termination of the delivery thread, the
return of `stop`, and the return of `join`. -/
inductive SysEv where
  | callbackInvoked (topic : String) (ev : Option Event)
  | deliveryTerminated
  | stopReturned
  | joinReturned
deriving DecidableEq

/-- Recognize a callback invocation in a system history. -/
def isCallback : SysEv → Bool
  | SysEv.callbackInvoked _ _ => true
  | _ => false

/-- Modelled from the spec: the transport collaborator contract for `join`
(section 4.2 / 5) — `join` blocks until the background delivery mechanism has
fully terminated, so in any system history every callback invocation occurs
strictly before any return of `join`. -/
def transportJoinContract (h : List SysEv) : Prop :=
  ∀ i j : Fin h.length, h.get i = SysEv.joinReturned →
    isCallback (h.get j) = true → j.val < i.val

instance (h : List SysEv) : Decidable (transportJoinContract h) := by
  unfold transportJoinContract
  infer_instance

/-- The owning-gateway name of the last contract in the list carrying the
given instrument key, if any: the value that last-write-wins rebuilding
leaves in the routing table. -/
def lastGW : List ContractData → String → Option String
  | [], _ => none
  | c :: rest, k =>
    match lastGW rest k with
    | some v => some v
    | none => if c.vt_symbol = k then some c.gateway_name else none

/-- Rewrite one routing-table binding to the value the contract list finally
assigns to its key, leaving keys the list does not mention untouched. -/
def patchPair (cs : List ContractData) (p : String × String) : String × String :=
  match lastGW cs p.1 with
  | some v => (p.1, v)
  | none => p

/-! Lemmas about the routing-table operations. -/

theorem lookupFirst_mapSet_self (m : List (String × String)) (k v : String) :
    lookupFirst (mapSet m k v) k = some v := by
  induction m with
  | nil => simp [mapSet, lookupFirst]
  | cons p rest ih =>
    obtain ⟨a, b⟩ := p
    by_cases h : a = k
    · simp [mapSet, h, lookupFirst]
    · simp [mapSet, h, lookupFirst, ih]

theorem lookupFirst_mapSet_ne (m : List (String × String)) (k k' v : String)
    (h : k' ≠ k) : lookupFirst (mapSet m k' v) k = lookupFirst m k := by
  induction m with
  | nil => simp [mapSet, lookupFirst, h]
  | cons p rest ih =>
    obtain ⟨a, b⟩ := p
    by_cases ha : a = k'
    · subst ha
      simp [mapSet, lookupFirst, h]
    · simp [mapSet, ha, lookupFirst, ih]

theorem ne_of_lastGW_none (cs : List ContractData) (k : String)
    (h : lastGW cs k = none) : ∀ c ∈ cs, c.vt_symbol ≠ k := by
  induction cs with
  | nil => intro c hc; cases hc
  | cons c0 t ih =>
    intro c hc
    rw [lastGW] at h
    rcases ht : lastGW t k with _ | v
    · rw [ht] at h
      rcases List.mem_cons.mp hc with hc | hc
      · subst hc
        intro hk
        rw [if_pos hk] at h
        cases h
      · exact ih ht c hc
    · rw [ht] at h
      cases h

theorem lastGW_eq_none_of_forall (cs : List ContractData) (k : String)
    (h : ∀ c ∈ cs, c.vt_symbol ≠ k) : lastGW cs k = none := by
  induction cs with
  | nil => rfl
  | cons c t ih =>
    rw [lastGW, ih (fun c' hc' => h c' (List.mem_cons_of_mem c hc'))]
    rw [if_neg (h c (List.mem_cons_self c t))]

theorem lastGW_isSome_of_mem (cs : List ContractData) (c : ContractData)
    (hc : c ∈ cs) : (lastGW cs c.vt_symbol).isSome := by
  rcases h : lastGW cs c.vt_symbol with _ | v
  · exact absurd rfl (ne_of_lastGW_none cs c.vt_symbol h c hc)
  · rfl

theorem lookupFirst_rebuildMap_not_mem (cs : List ContractData)
    (m : List (String × String)) (k : String)
    (h : ∀ c ∈ cs, c.vt_symbol ≠ k) :
    lookupFirst (rebuildMap m cs) k = lookupFirst m k := by
  induction cs generalizing m with
  | nil => rfl
  | cons c t ih =>
    have hc : c.vt_symbol ≠ k := h c (List.mem_cons_self c t)
    have ht : ∀ c' ∈ t, c'.vt_symbol ≠ k := fun c' hc' => h c' (List.mem_cons_of_mem c hc')
    calc lookupFirst (rebuildMap (mapSet m c.vt_symbol c.gateway_name) t) k
        = lookupFirst (mapSet m c.vt_symbol c.gateway_name) k := ih _ ht
      _ = lookupFirst m k := lookupFirst_mapSet_ne m k c.vt_symbol c.gateway_name hc

theorem lookupFirst_rebuildMap_lastGW (cs : List ContractData)
    (m : List (String × String)) (k v : String)
    (h : lastGW cs k = some v) :
    lookupFirst (rebuildMap m cs) k = some v := by
  induction cs generalizing m with
  | nil => cases h
  | cons c t ih =>
    rw [lastGW] at h
    rcases ht : lastGW t k with _ | w
    · rw [ht] at h
      by_cases hk : c.vt_symbol = k
      · rw [if_pos hk] at h
        injection h with h
        subst h
        subst hk
        show lookupFirst (rebuildMap (mapSet m c.vt_symbol c.gateway_name) t) c.vt_symbol = _
        rw [lookupFirst_rebuildMap_not_mem t _ _ (ne_of_lastGW_none t _ ht)]
        exact lookupFirst_mapSet_self m c.vt_symbol c.gateway_name
      · rw [if_neg hk] at h
        cases h
    · rw [ht] at h
      injection h with h
      subst h
      exact ih _ ht

theorem lastGW_of_nodup (cs : List ContractData) (c : ContractData)
    (hnd : (cs.map (fun c => c.vt_symbol)).Nodup) (hc : c ∈ cs) :
    lastGW cs c.vt_symbol = some c.gateway_name := by
  induction cs with
  | nil => cases hc
  | cons c0 t ih =>
    rw [List.map_cons, List.nodup_cons] at hnd
    rcases List.mem_cons.mp hc with hc | hc
    · subst hc
      have ht : lastGW t c.vt_symbol = none := by
        apply lastGW_eq_none_of_forall
        intro c' hc' he
        exact hnd.1 (by rw [← he]; exact List.mem_map_of_mem _ hc')
      rw [lastGW, ht, if_pos rfl]
    · have := ih hnd.2 hc
      rw [lastGW, this]

theorem fst_mapSet (m : List (String × String)) (k v : String) :
    (mapSet m k v).map Prod.fst =
      if k ∈ m.map Prod.fst then m.map Prod.fst else m.map Prod.fst ++ [k] := by
  induction m with
  | nil => simp [mapSet]
  | cons p rest ih =>
    obtain ⟨a, b⟩ := p
    by_cases h : a = k
    · subst h
      simp [mapSet]
    · have hne : ¬(k = a) := fun he => h he.symm
      simp only [mapSet, if_neg h, List.map_cons]
      rw [ih]
      by_cases hk : k ∈ rest.map Prod.fst
      · simp [hk, hne]
      · simp [hk, hne]

theorem nodup_fst_mapSet (m : List (String × String)) (k v : String)
    (h : (m.map Prod.fst).Nodup) : ((mapSet m k v).map Prod.fst).Nodup := by
  rw [fst_mapSet]
  by_cases hk : k ∈ m.map Prod.fst
  · simpa [hk] using h
  · rw [if_neg hk]
    simp [List.nodup_append, h, hk]

theorem nodup_fst_rebuildMap (cs : List ContractData) (m : List (String × String))
    (h : (m.map Prod.fst).Nodup) : ((rebuildMap m cs).map Prod.fst).Nodup := by
  induction cs generalizing m with
  | nil => exact h
  | cons c t ih => exact ih _ (nodup_fst_mapSet m c.vt_symbol c.gateway_name h)

theorem mem_fst_of_lookupFirst (m : List (String × String)) (k v : String)
    (h : lookupFirst m k = some v) : k ∈ m.map Prod.fst := by
  induction m with
  | nil => cases h
  | cons p rest ih =>
    obtain ⟨a, b⟩ := p
    rw [lookupFirst] at h
    by_cases ha : a = k
    · simp [ha]
    · rw [if_neg ha] at h
      simp [ih h]

theorem map_replace_of_not_mem (m : List (String × String)) (k v : String)
    (h : k ∉ m.map Prod.fst) :
    m.map (fun p => if p.1 = k then (k, v) else p) = m := by
  induction m with
  | nil => rfl
  | cons p rest ih =>
    obtain ⟨a, b⟩ := p
    simp only [List.map_cons, List.mem_cons] at h ⊢
    have ha : ¬(a = k) := fun he => h (Or.inl he.symm)
    rw [if_neg ha, ih (fun hm => h (Or.inr hm))]

theorem mapSet_eq_map_of_mem (m : List (String × String)) (k v : String)
    (hnd : (m.map Prod.fst).Nodup) (hk : k ∈ m.map Prod.fst) :
    mapSet m k v = m.map (fun p => if p.1 = k then (k, v) else p) := by
  induction m with
  | nil => cases hk
  | cons p rest ih =>
    obtain ⟨a, b⟩ := p
    rw [List.map_cons, List.nodup_cons] at hnd
    by_cases ha : a = k
    · subst ha
      have h1 : rest.map (fun p => if p.1 = a then (a, v) else p) = rest :=
        map_replace_of_not_mem rest a v hnd.1
      simp only [mapSet, if_pos rfl, List.map_cons, h1]
      simp
    · rw [List.map_cons] at hk
      rcases List.mem_cons.mp hk with hk | hk
      · exact absurd hk.symm ha
      · simp only [mapSet, if_neg ha, List.map_cons, if_neg ha]
        rw [ih hnd.2 hk]

theorem lookupFirst_of_mem_nodup (m : List (String × String)) (p : String × String)
    (hnd : (m.map Prod.fst).Nodup) (hp : p ∈ m) :
    lookupFirst m p.1 = some p.2 := by
  induction m with
  | nil => cases hp
  | cons q rest ih =>
    obtain ⟨a, b⟩ := q
    rw [List.map_cons, List.nodup_cons] at hnd
    rcases List.mem_cons.mp hp with hp | hp
    · subst hp
      simp [lookupFirst]
    · have ha : a ≠ p.1 := by
        intro he
        exact hnd.1 (List.mem_map.mpr ⟨p, hp, he.symm⟩)
      rw [lookupFirst, if_neg ha]
      exact ih hnd.2 hp

theorem map_congr_fun {α β : Type} (f g : α → β) (l : List α)
    (h : ∀ x, f x = g x) : l.map f = l.map g := by
  induction l with
  | nil => rfl
  | cons x t ih => simp [h, ih]

theorem map_eq_self_of_forall {α : Type} (l : List α) (f : α → α)
    (h : ∀ x ∈ l, f x = x) : l.map f = l := by
  induction l with
  | nil => rfl
  | cons x t ih =>
    rw [List.map_cons, h x (List.mem_cons_self x t),
      ih (fun y hy => h y (List.mem_cons_of_mem x hy))]

theorem map_fst_comp (m : List (String × String))
    (g : String × String → String × String) (h : ∀ p, (g p).1 = p.1) :
    (m.map g).map Prod.fst = m.map Prod.fst := by
  induction m with
  | nil => rfl
  | cons p rest ih => simp [h p, ih]

theorem map_patchPair_nil (m : List (String × String)) :
    m.map (patchPair []) = m := by
  induction m with
  | nil => rfl
  | cons p rest ih =>
    rw [List.map_cons, ih]
    rfl

theorem patchPair_cons (c : ContractData) (cs : List ContractData)
    (p : String × String) :
    patchPair (c :: cs) p =
      patchPair cs (if p.1 = c.vt_symbol then (c.vt_symbol, c.gateway_name) else p) := by
  by_cases hp : p.1 = c.vt_symbol
  · rw [if_pos hp]
    rcases h : lastGW cs p.1 with _ | v
    · have hlc : lastGW (c :: cs) p.1 = some c.gateway_name := by
        rw [lastGW, h, if_pos hp.symm]
      have hrc : lastGW cs c.vt_symbol = none := by rw [← hp]; exact h
      show (match lastGW (c :: cs) p.1 with
            | some v => (p.1, v)
            | none => p) = _
      rw [hlc]
      show _ = (match lastGW cs c.vt_symbol with
                | some v => (c.vt_symbol, v)
                | none => (c.vt_symbol, c.gateway_name))
      rw [hrc, hp]
    · have hlc : lastGW (c :: cs) p.1 = some v := by rw [lastGW, h]
      have hrc : lastGW cs c.vt_symbol = some v := by rw [← hp]; exact h
      show (match lastGW (c :: cs) p.1 with
            | some v => (p.1, v)
            | none => p) = _
      rw [hlc]
      show _ = (match lastGW cs c.vt_symbol with
                | some w => (c.vt_symbol, w)
                | none => (c.vt_symbol, c.gateway_name))
      rw [hrc, hp]
  · rw [if_neg hp]
    have hlc : lastGW (c :: cs) p.1 = lastGW cs p.1 := by
      rw [lastGW]
      rcases h : lastGW cs p.1 with _ | v
      · rw [if_neg (fun he => hp he.symm)]
      · rfl
    show (match lastGW (c :: cs) p.1 with
          | some v => (p.1, v)
          | none => p) = patchPair cs p
    rw [hlc]
    rfl

theorem rebuildMap_eq_map_patch (cs : List ContractData)
    (m : List (String × String)) (hnd : (m.map Prod.fst).Nodup)
    (hmem : ∀ c ∈ cs, c.vt_symbol ∈ m.map Prod.fst) :
    rebuildMap m cs = m.map (patchPair cs) := by
  induction cs generalizing m with
  | nil =>
    rw [map_patchPair_nil]
    rfl
  | cons c t ih =>
    have hcm : c.vt_symbol ∈ m.map Prod.fst := hmem c (List.mem_cons_self c t)
    have hins : mapSet m c.vt_symbol c.gateway_name =
        m.map (fun p => if p.1 = c.vt_symbol then (c.vt_symbol, c.gateway_name) else p) :=
      mapSet_eq_map_of_mem m c.vt_symbol c.gateway_name hnd hcm
    have hgfst : ∀ p : String × String,
        ((fun p => if p.1 = c.vt_symbol then (c.vt_symbol, c.gateway_name) else p) p).1 = p.1 := by
      intro p
      by_cases hp : p.1 = c.vt_symbol
      · simp [hp]
      · simp [hp]
    have hfst : ((m.map (fun p => if p.1 = c.vt_symbol then (c.vt_symbol, c.gateway_name) else p)).map Prod.fst)
        = m.map Prod.fst := map_fst_comp m _ hgfst
    have hnd' := hfst.symm ▸ hnd
    have hmem' : ∀ c' ∈ t, c'.vt_symbol ∈
        (m.map (fun p => if p.1 = c.vt_symbol then (c.vt_symbol, c.gateway_name) else p)).map Prod.fst := by
      intro c' hc'
      rw [hfst]
      exact hmem c' (List.mem_cons_of_mem c hc')
    calc rebuildMap m (c :: t)
        = rebuildMap (mapSet m c.vt_symbol c.gateway_name) t := rfl
      _ = rebuildMap (m.map (fun p => if p.1 = c.vt_symbol then (c.vt_symbol, c.gateway_name) else p)) t := by
          rw [hins]
      _ = (m.map (fun p => if p.1 = c.vt_symbol then (c.vt_symbol, c.gateway_name) else p)).map (patchPair t) :=
          ih _ hnd' hmem'
      _ = m.map (patchPair t ∘ (fun p => if p.1 = c.vt_symbol then (c.vt_symbol, c.gateway_name) else p)) := by
          rw [List.map_map]
      _ = m.map (patchPair (c :: t)) :=
          map_congr_fun _ _ m (fun p => (patchPair_cons c t p).symm)

theorem rebuildMap_idem (m : List (String × String)) (cs : List ContractData)
    (hnd : (m.map Prod.fst).Nodup) :
    rebuildMap (rebuildMap m cs) cs = rebuildMap m cs := by
  have hnd1 := nodup_fst_rebuildMap cs m hnd
  have hmem : ∀ c ∈ cs, c.vt_symbol ∈ (rebuildMap m cs).map Prod.fst := by
    intro c hc
    rcases Option.isSome_iff_exists.mp (lastGW_isSome_of_mem cs c hc) with ⟨v, hv⟩
    exact mem_fst_of_lookupFirst _ _ v (lookupFirst_rebuildMap_lastGW cs m _ v hv)
  rw [rebuildMap_eq_map_patch cs _ hnd1 hmem]
  apply map_eq_self_of_forall
  intro p hp
  rcases h : lastGW cs p.1 with _ | v
  · show (match lastGW cs p.1 with
          | some v => (p.1, v)
          | none => p) = p
    rw [h]
  · have h1 : lookupFirst (rebuildMap m cs) p.1 = some p.2 :=
      lookupFirst_of_mem_nodup _ p hnd1 hp
    have h2 : lookupFirst (rebuildMap m cs) p.1 = some v :=
      lookupFirst_rebuildMap_lastGW cs m p.1 v h
    have hv : v = p.2 := by
      rw [h1] at h2
      injection h2 with h2
      exact h2.symm
    show (match lastGW cs p.1 with
          | some v => (p.1, v)
          | none => p) = p
    rw [h, hv]

theorem query_allE_state_of_ok (gw : RpcGateway) (cl : RpcClientE)
    (cs : List ContractData) (h1 : cl.get_all_contracts = Except.ok cs) :
    (query_allE gw cl).state =
      { gw with symbol_gateway_map := rebuildMap gw.symbol_gateway_map cs } := by
  unfold query_allE
  rw [h1]
  rcases cl.get_all_accounts with eA | as
  · rfl
  · rcases cl.get_all_positions with eP | ps
    · rfl
    · rcases cl.get_all_orders with eO | os
      · rfl
      · rcases cl.get_all_trades with eT | ts
        · rfl
        · rfl

theorem query_allE_onContract_mem (gw : RpcGateway) (cl : RpcClientE)
    (cs : List ContractData) (c : ContractData)
    (h1 : cl.get_all_contracts = Except.ok cs) (hc : c ∈ cs) :
    Action.onContract (relabelContract gw.gateway_name c) ∈ (query_allE gw cl).trace := by
  have hmem : Action.onContract (relabelContract gw.gateway_name c) ∈
      cs.map (fun c' => Action.onContract (relabelContract gw.gateway_name c')) :=
    List.mem_map.mpr ⟨c, hc, rfl⟩
  unfold query_allE
  rw [h1]
  rcases cl.get_all_accounts with eA | as
  · simp [List.mem_append, hmem]
  · rcases cl.get_all_positions with eP | ps
    · simp [List.mem_append, hmem]
    · rcases cl.get_all_orders with eO | os
      · simp [List.mem_append, hmem]
      · rcases cl.get_all_trades with eT | ts
        · simp [List.mem_append, hmem]
        · simp [List.mem_append, hmem]

/-! Claim theorems. -/

/-- C1, counterexample.  The claim quantifies over every non-empty remote
order identifier and promises a split on the first dot; but on the identifier
"backendA.78.9" (whose local fragment itself contains a dot) the bridge's
`send_order` does not return "RPC.78.9" — the two-element tuple unpacking of
Python's `split(".")` (which splits on every dot) raises `ValueError`. -/
theorem send_order_multi_dot_raises :
    (send_order ⟨"RPC", []⟩ "backendA.78.9" ⟨"IF2106.CFFEX"⟩).2 ≠
        Except.ok ("RPC" ++ "." ++ "78.9")
    ∧ (send_order ⟨"RPC", []⟩ "backendA.78.9" ⟨"IF2106.CFFEX"⟩).2 =
        Except.error "ValueError: tuple unpacking of str.split result"
    ∧ "backendA.78.9" ≠ "" := by
  refine ⟨?_, ?_, ?_⟩ <;> decide

/-- C1, amended.  For a non-empty remote order identifier that splits on dots
into exactly two parts (the wire format `gateway.localid` with a dot-free
local id), `send_order` returns the bridge's own gateway name, a dot, and the
part after the dot; an empty remote result is returned unchanged.  (Remote
identifiers with zero or several dots instead raise `ValueError`.) -/
theorem send_order_renamespaces (gw : RpcGateway) (req : OrderRequest) (r : String)
    (h1 : r ≠ "") (h2 : (splitOnDot r).length = 2) :
    (send_order gw r req).2 =
      Except.ok (gw.gateway_name ++ "." ++ (splitOnDot r).getD 1 "")
    ∧ (send_order gw "" req).2 = Except.ok "" := by
  constructor
  · unfold send_order
    rw [if_neg h1]
    rcases hl : splitOnDot r with _ | ⟨a, _ | ⟨b, _ | ⟨c, t⟩⟩⟩
    · rw [hl] at h2
      cases h2
    · rw [hl] at h2
      cases h2
    · rfl
    · rw [hl] at h2
      cases h2
  · rfl

/-- C1, witness for the amended theorem: remote result "backendA.789" with
bridge name "RPC" yields exactly "RPC.789", and an empty remote result is
passed through unchanged. -/
theorem send_order_renamespaces_witness :
    (send_order ⟨"RPC", []⟩ "backendA.789" ⟨"IF2106.CFFEX"⟩).2 =
      Except.ok ("RPC" ++ "." ++ (splitOnDot "backendA.789").getD 1 "")
    ∧ (send_order ⟨"RPC", []⟩ "" ⟨"IF2106.CFFEX"⟩).2 = Except.ok "" :=
  send_order_renamespaces ⟨"RPC", []⟩ ⟨"IF2106.CFFEX"⟩ "backendA.789"
    (by decide) (by decide)

/-- C2.  A non-null event is forwarded to the host bus exactly once, with its
payload normalized; any payload carrying the owning-gateway label leaves with
the bridge's own gateway name; and for the four derived-field kinds the
forwarded payload is relabelled and then recomputed by the very
`accountPostInit`/`positionPostInit`/`orderPostInit`/`tradePostInit`
functions that `query_allE` applies to the corresponding kinds. -/
theorem client_callback_normalizes (gw : RpcGateway) (topic : String) (ev : Event)
    (d : EventData) (hd : (dataGatewayName d).isSome)
    (a : AccountData) (p : PositionData) (o : OrderData) (t : TradeData) :
    client_callback gw topic (some ev) =
      [Action.putEvent ⟨ev.etype, postInitData (setGatewayName gw.gateway_name ev.data)⟩]
    ∧ dataGatewayName (postInitData (setGatewayName gw.gateway_name d)) =
        some gw.gateway_name
    ∧ postInitData (setGatewayName gw.gateway_name (EventData.account a)) =
        EventData.account (accountPostInit { a with gateway_name := gw.gateway_name })
    ∧ postInitData (setGatewayName gw.gateway_name (EventData.position p)) =
        EventData.position (positionPostInit { p with gateway_name := gw.gateway_name })
    ∧ postInitData (setGatewayName gw.gateway_name (EventData.order o)) =
        EventData.order (orderPostInit { o with gateway_name := gw.gateway_name })
    ∧ postInitData (setGatewayName gw.gateway_name (EventData.trade t)) =
        EventData.trade (tradePostInit { t with gateway_name := gw.gateway_name }) := by
  refine ⟨rfl, ?_, rfl, rfl, rfl, rfl⟩
  cases d with
  | contract c => rfl
  | account a' => rfl
  | position p' => rfl
  | order o' => rfl
  | trade t' => rfl
  | other s => cases hd

/-- C2, witness: a pushed order payload labelled with the remote sub-gateway
name "backendA" is forwarded carrying the bridge's name "RPC". -/
theorem client_callback_normalizes_witness :
    dataGatewayName (postInitData (setGatewayName "RPC"
      (EventData.order ⟨"7", "backendA", "backendA.7"⟩))) = some "RPC" :=
  (client_callback_normalizes ⟨"RPC", []⟩ "topic" ⟨"eOrder", EventData.other "x"⟩
    (EventData.order ⟨"7", "backendA", "backendA.7"⟩) (by decide)
    ⟨"a", "g", "g.a"⟩ ⟨"s", "long", "g", "g.s.long"⟩ ⟨"1", "g", "g.1"⟩
    ⟨"1", "2", "g", "g.1", "g.2"⟩).2.1

/-- C5.  A null inbound event is printed as a console diagnostic and dropped:
for every topic, the callback performs exactly the diagnostic action, never
puts anything on the host event bus, and (being a total function) never
raises. -/
theorem client_callback_none_drops (gw : RpcGateway) (topic : String) :
    client_callback gw topic none = [Action.printDiag topic]
    ∧ ∀ e : Event, Action.putEvent e ∉ client_callback gw topic none := by
  refine ⟨rfl, ?_⟩
  intro e
  simp [client_callback]

/-- C10.  `query_account` and `query_position` have `pass` bodies: no remote
call, no forwarded record, no log, and the gateway state — in particular the
routing table — is returned unchanged. -/
theorem query_account_position_noop (gw : RpcGateway) :
    query_account gw = (gw, [])
    ∧ query_position gw = (gw, [])
    ∧ (query_account gw).1.symbol_gateway_map = gw.symbol_gateway_map
    ∧ (query_position gw).1.symbol_gateway_map = gw.symbol_gateway_map :=
  ⟨rfl, rfl, rfl, rfl⟩

theorem send_order_trace (gw : RpcGateway) (r : String) (req : OrderRequest) :
    (send_order gw r req).1 =
      [Action.clientSendOrder req.vt_symbol (mapGet gw.symbol_gateway_map req.vt_symbol)] := by
  simp only [send_order]
  split
  · rfl
  · split <;> rfl

/-- C3.  After a `query_all` pass over a contract list with pairwise distinct
instrument identities (the spec's global-uniqueness assumption on identities),
the routing table maps each contract's identity to its original remote
owning-gateway name, while the contract record forwarded to the host carries
the bridge's configured gateway name. -/
theorem query_all_contract_routing (gw : RpcGateway) (cl : RpcClientE)
    (cs : List ContractData) (c : ContractData)
    (h1 : cl.get_all_contracts = Except.ok cs)
    (h2 : (cs.map (fun c' => c'.vt_symbol)).Nodup) (hc : c ∈ cs) :
    mapGet (query_allE gw cl).state.symbol_gateway_map c.vt_symbol = c.gateway_name
    ∧ Action.onContract (relabelContract gw.gateway_name c) ∈ (query_allE gw cl).trace
    ∧ (relabelContract gw.gateway_name c).gateway_name = gw.gateway_name := by
  refine ⟨?_, query_allE_onContract_mem gw cl cs c h1 hc, rfl⟩
  rw [query_allE_state_of_ok gw cl cs h1]
  show (lookupFirst (rebuildMap gw.symbol_gateway_map cs) c.vt_symbol).getD "" = c.gateway_name
  rw [lookupFirst_rebuildMap_lastGW cs _ _ _ (lastGW_of_nodup cs c h2 hc)]
  rfl

/-- C3, witness: the identity "IF2106.CFFEX" owned remotely by "backendA"
routes back to "backendA" after the pass. -/
theorem query_all_contract_routing_witness :
    mapGet (query_allE ⟨"RPC", []⟩
      ⟨Except.ok [⟨"IF2106", "IF2106.CFFEX", "backendA"⟩, ⟨"rb2110", "rb2110.SHFE", "backendB"⟩],
        Except.ok [], Except.ok [], Except.ok [], Except.ok []⟩).state.symbol_gateway_map
      "IF2106.CFFEX" = "backendA" :=
  (query_all_contract_routing ⟨"RPC", []⟩
    ⟨Except.ok [⟨"IF2106", "IF2106.CFFEX", "backendA"⟩, ⟨"rb2110", "rb2110.SHFE", "backendB"⟩],
      Except.ok [], Except.ok [], Except.ok [], Except.ok []⟩
    [⟨"IF2106", "IF2106.CFFEX", "backendA"⟩, ⟨"rb2110", "rb2110.SHFE", "backendB"⟩]
    ⟨"IF2106", "IF2106.CFFEX", "backendA"⟩ rfl (by decide) (by decide)).1

/-- C4, counterexample.  With the accounts fetch raising "network down", the
position, order and trade stages never run — the positions fetch is not even
issued and no later completion log appears — contradicting the claim that a
failure in one category does not prevent later stages. -/
theorem query_all_not_stage_independent :
    (query_allE ⟨"RPC", []⟩
      ⟨Except.ok [], Except.error "network down", Except.ok [], Except.ok [], Except.ok []⟩).result
      = Except.error "network down"
    ∧ (query_allE ⟨"RPC", []⟩
        ⟨Except.ok [], Except.error "network down", Except.ok [], Except.ok [], Except.ok []⟩).trace
      = [Action.getAllContracts, Action.writeLog "Successful contract information inquiry",
          Action.getAllAccounts]
    ∧ Action.getAllPositions ∉ (query_allE ⟨"RPC", []⟩
        ⟨Except.ok [], Except.error "network down", Except.ok [], Except.ok [], Except.ok []⟩).trace
    ∧ Action.writeLog "Position information query successful" ∉ (query_allE ⟨"RPC", []⟩
        ⟨Except.ok [], Except.error "network down", Except.ok [], Except.ok [], Except.ok []⟩).trace
    ∧ Action.getAllTrades ∉ (query_allE ⟨"RPC", []⟩
        ⟨Except.ok [], Except.error "network down", Except.ok [], Except.ok [], Except.ok []⟩).trace := by
  refine ⟨rfl, rfl, ?_, ?_, ?_⟩ <;> decide

/-- C4, amended.  The five stages of `query_all` run in a fixed sequence and
each completed stage is signalled with a completion log line, but the stages
are not failure-isolated: an exception while fetching one category propagates
and prevents every later stage from running (fail-fast), e.g. an
accounts-fetch failure skips the position, order and trade stages, and a
contracts-fetch failure aborts the whole pass. -/
theorem query_all_fail_fast (gw : RpcGateway) (cl cl' : RpcClientE)
    (cs : List ContractData) (err err' : String)
    (h1 : cl.get_all_contracts = Except.ok cs)
    (h2 : cl.get_all_accounts = Except.error err)
    (h3 : cl'.get_all_contracts = Except.error err') :
    (query_allE gw cl).result = Except.error err
    ∧ (query_allE gw cl).trace =
        [Action.getAllContracts]
        ++ cs.map (fun c => Action.onContract (relabelContract gw.gateway_name c))
        ++ [Action.writeLog "Successful contract information inquiry", Action.getAllAccounts]
    ∧ Action.getAllPositions ∉ (query_allE gw cl).trace
    ∧ Action.getAllOrders ∉ (query_allE gw cl).trace
    ∧ Action.getAllTrades ∉ (query_allE gw cl).trace
    ∧ query_allE gw cl' = ⟨[Action.getAllContracts], gw, Except.error err'⟩ := by
  have ht : (query_allE gw cl).trace =
      [Action.getAllContracts]
      ++ cs.map (fun c => Action.onContract (relabelContract gw.gateway_name c))
      ++ [Action.writeLog "Successful contract information inquiry", Action.getAllAccounts] := by
    simp [query_allE, h1, h2, List.append_assoc]
  have hres : (query_allE gw cl).result = Except.error err := by
    unfold query_allE
    rw [h1, h2]
  have habort : query_allE gw cl' = ⟨[Action.getAllContracts], gw, Except.error err'⟩ := by
    unfold query_allE
    rw [h3]
  refine ⟨hres, ht, ?_, ?_, ?_, habort⟩ <;>
    (rw [ht]; simp [List.mem_append, List.mem_map])

/-- C4, witness for the amended theorem: an accounts failure yields the
propagated error, and a contracts failure aborts the pass at once. -/
theorem query_all_fail_fast_witness :
    (query_allE ⟨"RPC", []⟩
      ⟨Except.ok [⟨"IF2106", "IF2106.CFFEX", "backendA"⟩], Except.error "boom",
        Except.ok [], Except.ok [], Except.ok []⟩).result = Except.error "boom"
    ∧ query_allE ⟨"RPC", []⟩
        ⟨Except.error "down", Except.ok [], Except.ok [], Except.ok [], Except.ok []⟩
      = ⟨[Action.getAllContracts], ⟨"RPC", []⟩, Except.error "down"⟩ :=
  have h := query_all_fail_fast ⟨"RPC", []⟩
    ⟨Except.ok [⟨"IF2106", "IF2106.CFFEX", "backendA"⟩], Except.error "boom",
      Except.ok [], Except.ok [], Except.ok []⟩
    ⟨Except.error "down", Except.ok [], Except.ok [], Except.ok [], Except.ok []⟩
    [⟨"IF2106", "IF2106.CFFEX", "backendA"⟩] "boom" "down" rfl rfl rfl
  ⟨h.1, h.2.2.2.2.2⟩

/-- C6.  When the routing table has no entry for an instrument identity, the
lookup returns the empty-string default rather than failing, and each of
subscribe, send_order, cancel_order and query_history dispatches its remote
call with the empty sub-gateway argument. -/
theorem missing_routing_entry_defaults (gw : RpcGateway) (s r : String)
    (h : lookupFirst gw.symbol_gateway_map s = none) :
    mapGet gw.symbol_gateway_map s = ""
    ∧ subscribe gw ⟨s⟩ = [Action.clientSubscribe s ""]
    ∧ (send_order gw r ⟨s⟩).1 = [Action.clientSendOrder s ""]
    ∧ cancel_order gw ⟨s⟩ = [Action.clientCancelOrder s ""]
    ∧ query_history gw ⟨s⟩ = [Action.clientQueryHistory s ""] := by
  have hm : mapGet gw.symbol_gateway_map s = "" := by
    unfold mapGet
    rw [h]
    rfl
  refine ⟨hm, ?_, ?_, ?_, ?_⟩
  · simp [subscribe, hm]
  · rw [send_order_trace, hm]
  · simp [cancel_order, hm]
  · simp [query_history, hm]

/-- C6, witness: an identity absent from a non-empty routing table dispatches
with the empty sub-gateway argument. -/
theorem missing_routing_entry_defaults_witness :
    mapGet (⟨"RPC", [("a", "b")]⟩ : RpcGateway).symbol_gateway_map "IF2106.CFFEX" = ""
    ∧ subscribe ⟨"RPC", [("a", "b")]⟩ ⟨"IF2106.CFFEX"⟩ =
        [Action.clientSubscribe "IF2106.CFFEX" ""] :=
  have h := missing_routing_entry_defaults ⟨"RPC", [("a", "b")]⟩ "IF2106.CFFEX" "x.1"
    (by decide)
  ⟨h.1, h.2.1⟩

/-- C7.  Rebuilding the routing table from a contract list is last-write-wins
— the lookup of a key afterwards yields the owning-gateway name of the last
contract in the list with that key — the rebuilt table keeps its keys
duplicate-free, and running the same contract-processing pass twice over the
same list leaves the table exactly as one pass does (idempotence). -/
theorem rebuild_last_write_wins_idem (m : List (String × String))
    (cs : List ContractData) (k v : String)
    (hm : (m.map Prod.fst).Nodup) (hk : lastGW cs k = some v) :
    lookupFirst (rebuildMap m cs) k = some v
    ∧ rebuildMap (rebuildMap m cs) cs = rebuildMap m cs
    ∧ ((rebuildMap m cs).map Prod.fst).Nodup :=
  ⟨lookupFirst_rebuildMap_lastGW cs m k v hk, rebuildMap_idem m cs hm,
    nodup_fst_rebuildMap cs m hm⟩

/-- C7, witness: a repeated identity "s" first owned by "g1" then by "g2"
ends up mapped to "g2", and a second identical pass changes nothing. -/
theorem rebuild_last_write_wins_idem_witness :
    lookupFirst (rebuildMap [("x", "g0")]
      [⟨"IF2106", "s", "g1"⟩, ⟨"IF2106", "s", "g2"⟩]) "s" = some "g2"
    ∧ rebuildMap (rebuildMap [("x", "g0")] [⟨"IF2106", "s", "g1"⟩, ⟨"IF2106", "s", "g2"⟩])
        [⟨"IF2106", "s", "g1"⟩, ⟨"IF2106", "s", "g2"⟩]
      = rebuildMap [("x", "g0")] [⟨"IF2106", "s", "g1"⟩, ⟨"IF2106", "s", "g2"⟩] :=
  have h := rebuild_last_write_wins_idem [("x", "g0")]
    [⟨"IF2106", "s", "g1"⟩, ⟨"IF2106", "s", "g2"⟩] "s" "g2" (by decide) (by decide)
  ⟨h.1, h.2.1⟩

/-- C8.  `close` performs exactly a transport stop followed by a join, and —
under the transport collaborator contract that `join` only returns after the
background delivery mechanism has fully terminated — no callback invocation
can occur at any point of a system history after a return of `join`, so
nothing further is observable at the host bus once `close` has returned. -/
theorem close_stops_joins_barrier (gw : RpcGateway) (h : List SysEv)
    (hc : transportJoinContract h) (i j : Fin h.length)
    (hi : h.get i = SysEv.joinReturned) (hij : i.val < j.val) :
    close gw = [Action.clientStop, Action.clientJoin]
    ∧ isCallback (h.get j) = false := by
  refine ⟨rfl, ?_⟩
  cases hcb : isCallback (h.get j) with
  | false => rfl
  | true => exact absurd (hc i j hi hcb) (Nat.lt_asymm hij)

/-- C8, witness: in a well-formed history where `join` returns at position 1,
the later position 2 is not a callback invocation. -/
theorem close_stops_joins_barrier_witness :
    close ⟨"RPC", []⟩ = [Action.clientStop, Action.clientJoin]
    ∧ isCallback (([SysEv.callbackInvoked "t" none, SysEv.joinReturned,
        SysEv.stopReturned] : List SysEv).get ⟨2, by decide⟩) = false :=
  close_stops_joins_barrier ⟨"RPC", []⟩
    [SysEv.callbackInvoked "t" none, SysEv.joinReturned, SysEv.stopReturned]
    (by decide) ⟨1, by decide⟩ ⟨2, by decide⟩ (by decide) (by decide)

/-- C9.  With every fetch succeeding, `connect` produces exactly one
empty-prefix topic subscription and exactly one transport start carrying the
two configured endpoint addresses, and its full trace is the bootstrap in
fixed order — contracts, accounts, positions, orders, trades — each stage
being its fetch, one forwarded record per remote item, and one completion
log line. -/
theorem connect_bootstrap (gw : RpcGateway) (st : ConnectSetting) (cl : RpcClientE)
    (cs : List ContractData) (accs : List AccountData) (ps : List PositionData)
    (os : List OrderData) (ts : List TradeData)
    (h1 : cl.get_all_contracts = Except.ok cs)
    (h2 : cl.get_all_accounts = Except.ok accs)
    (h3 : cl.get_all_positions = Except.ok ps)
    (h4 : cl.get_all_orders = Except.ok os)
    (h5 : cl.get_all_trades = Except.ok ts) :
    (connect gw st cl).trace =
      [Action.subscribeTopic "",
        Action.clientStart st.request_address st.subscription_address,
        Action.writeLog "Server connection successful, starting initialization query",
        Action.getAllContracts]
      ++ cs.map (fun c => Action.onContract (relabelContract gw.gateway_name c))
      ++ [Action.writeLog "Successful contract information inquiry", Action.getAllAccounts]
      ++ accs.map (fun a =>
          Action.onAccount (accountPostInit { a with gateway_name := gw.gateway_name }))
      ++ [Action.writeLog "Funding information query successful", Action.getAllPositions]
      ++ ps.map (fun p =>
          Action.onPosition (positionPostInit { p with gateway_name := gw.gateway_name }))
      ++ [Action.writeLog "Position information query successful", Action.getAllOrders]
      ++ os.map (fun o =>
          Action.onOrder (orderPostInit { o with gateway_name := gw.gateway_name }))
      ++ [Action.writeLog "Order information query successful", Action.getAllTrades]
      ++ ts.map (fun t =>
          Action.onTrade (tradePostInit { t with gateway_name := gw.gateway_name }))
      ++ [Action.writeLog "Successful trade information query"]
    ∧ (connect gw st cl).trace.filter isSubscribeTopicAct = [Action.subscribeTopic ""]
    ∧ (connect gw st cl).trace.filter isStartAct =
        [Action.clientStart st.request_address st.subscription_address] := by
  have ht : (connect gw st cl).trace =
      [Action.subscribeTopic "",
        Action.clientStart st.request_address st.subscription_address,
        Action.writeLog "Server connection successful, starting initialization query",
        Action.getAllContracts]
      ++ cs.map (fun c => Action.onContract (relabelContract gw.gateway_name c))
      ++ [Action.writeLog "Successful contract information inquiry", Action.getAllAccounts]
      ++ accs.map (fun a =>
          Action.onAccount (accountPostInit { a with gateway_name := gw.gateway_name }))
      ++ [Action.writeLog "Funding information query successful", Action.getAllPositions]
      ++ ps.map (fun p =>
          Action.onPosition (positionPostInit { p with gateway_name := gw.gateway_name }))
      ++ [Action.writeLog "Position information query successful", Action.getAllOrders]
      ++ os.map (fun o =>
          Action.onOrder (orderPostInit { o with gateway_name := gw.gateway_name }))
      ++ [Action.writeLog "Order information query successful", Action.getAllTrades]
      ++ ts.map (fun t =>
          Action.onTrade (tradePostInit { t with gateway_name := gw.gateway_name }))
      ++ [Action.writeLog "Successful trade information query"] := by
    simp [connect, query_allE, h1, h2, h3, h4, h5, List.append_assoc]
  refine ⟨ht, ?_, ?_⟩ <;>
    (rw [ht]
     simp [List.filter_append, List.filter_map, Function.comp,
       isSubscribeTopicAct, isStartAct])

/-- C9, witness: a concrete connect run over the default addresses with one
remote contract and one remote account. -/
theorem connect_bootstrap_witness :
    (connect ⟨"RPC", []⟩ default_setting
      ⟨Except.ok [⟨"IF2106", "IF2106.CFFEX", "backendA"⟩],
        Except.ok [⟨"acc", "backendA", "backendA.acc"⟩],
        Except.ok [], Except.ok [], Except.ok []⟩).trace.filter isSubscribeTopicAct
      = [Action.subscribeTopic ""]
    ∧ (connect ⟨"RPC", []⟩ default_setting
        ⟨Except.ok [⟨"IF2106", "IF2106.CFFEX", "backendA"⟩],
          Except.ok [⟨"acc", "backendA", "backendA.acc"⟩],
          Except.ok [], Except.ok [], Except.ok []⟩).trace.filter isStartAct
      = [Action.clientStart "tcp://127.0.0.1:2014" "tcp://127.0.0.1:4102"] :=
  have h := connect_bootstrap ⟨"RPC", []⟩ default_setting
    ⟨Except.ok [⟨"IF2106", "IF2106.CFFEX", "backendA"⟩],
      Except.ok [⟨"acc", "backendA", "backendA.acc"⟩],
      Except.ok [], Except.ok [], Except.ok []⟩
    [⟨"IF2106", "IF2106.CFFEX", "backendA"⟩] [⟨"acc", "backendA", "backendA.acc"⟩]
    [] [] [] rfl rfl rfl rfl rfl
  ⟨h.2.1, h.2.2⟩

end Vnpy
